import Mathlib

/-!
Verification development for the lightwood conformal-calibration core.

Shallow embedding of:
* the group-key construction and group enumeration / matching helpers
  (`src/lightwood/encoder/time_series/helpers/common.py`,
   `src/lightwood/analysis/model_analyzer.py`),
* the min-max normalizer (`MinMaxNormalizer` over scikit-learn `MinMaxScaler`),
* the control flow of `model_analyzer` (`src/lightwood/analysis/model_analyzer.py`),
* `TimeseriesSettings.from_dict` (`src/lightwood/api/types.py`).

Python floats are modelled as rationals (`Rat`); Python exceptions as an
explicit `Except` error type.
-/

/-! ## Group keys (model_analyzer.py line 148, common.py line 146) -/

/-- Embeds `frozenset(combination)` where `combination` is the tuple of the
group-by columns' values (values only — the column names are not part of the
key).  From `model_analyzer.py` line 148 and `common.py` line 146. -/
def groupKeyOfCombination (combination : List String) : Finset String :=
  combination.toFinset

/-! ## Group enumeration (common.py lines 143-144, model_analyzer.py line 142) -/

/-- Embeds Python `set(x)` read as the collection of distinct values of the
column value list `x` (membership is what matters; iteration order of a Python
set is arbitrary). -/
def pySet (xs : List String) : List String := xs.dedup

/-- Embeds `itertools.product(*lists)`: the first list varies slowest. -/
def pyProduct : List (List String) → List (List String)
  | [] => [[]]
  | l :: ls => l.flatMap (fun x => (pyProduct ls).map (fun c => x :: c))

/-- Embeds `list(product(*[set(x) for x in group_info.values()]))`
(`common.py` line 143, `model_analyzer.py` line 142).  `group_info` is the
ordered list of the group-by columns' value lists. -/
def all_group_combinations (group_info : List (List String)) : List (List String) :=
  pyProduct (group_info.map pySet)

/-! ## Group matching (common.py lines 97-119, `get_group_matches`) -/

/-- Embeds `set([i for i, elt in enumerate(group_info[key]) if elt == val])`
(`common.py` line 113): the set of row indices at which column `colVals`
holds `val`. -/
def matchSet (colVals : List String) (val : String) : Finset Nat :=
  (Finset.range colVals.length).filter (fun i => colVals.getD i "" = val)

/-- Embeds `get_group_matches` (`common.py` lines 97-119), restricted to the
returned index set (the companion data subset `np.array(data['data'])[idxs, :]`
is numpy row selection and is not modelled).  `nrows = len(data['data'])`,
`group_info` the ordered group-by column value lists, `combination` the tuple
of values to filter by.  The Python function returns `list(...)` of a set with
unspecified order, so the result is modelled as a `Finset`. -/
def get_group_matches (nrows : Nat) (group_info : List (List String))
    (combination : List String) : Finset Nat :=
  if combination = [] then Finset.range nrows
  else
    match (combination.zip group_info).map (fun p => matchSet p.2 p.1) with
    | [] => ∅
    | s :: rest => rest.foldl (fun a b => a ∩ b) s

/-! ### Helper lemmas -/

theorem mem_pyProduct {c : List String} :
    ∀ {ls : List (List String)},
      c ∈ pyProduct ls ↔ List.Forall₂ (fun v l => v ∈ l) c ls := by
  intro ls
  induction ls generalizing c with
  | nil =>
    simp only [pyProduct, List.mem_singleton]
    constructor
    · rintro rfl; exact List.Forall₂.nil
    · intro h; cases h; rfl
  | cons l ls ih =>
    simp only [pyProduct, List.mem_flatMap, List.mem_map]
    constructor
    · rintro ⟨x, hx, t, ht, rfl⟩
      exact List.Forall₂.cons hx (ih.mp ht)
    · intro h
      cases h with
      | cons hv ht => exact ⟨_, hv, _, ih.mpr ht, rfl⟩

theorem pyProduct_nodup :
    ∀ {ls : List (List String)}, (∀ l ∈ ls, l.Nodup) → (pyProduct ls).Nodup := by
  intro ls
  induction ls with
  | nil => intro _; simp [pyProduct]
  | cons l ls ih =>
    intro h
    have hl : l.Nodup := h l (List.mem_cons_self _ _)
    have hls : (pyProduct ls).Nodup := ih (fun x hx => h x (List.mem_cons_of_mem _ hx))
    simp only [pyProduct]
    rw [List.nodup_flatMap]
    constructor
    · intro x _
      exact hls.map (fun a b hab => (List.cons.injEq x a x b).mp hab |>.2)
    · refine hl.pairwise_of_forall_ne ?_
      intro a ha b hb hne
      intro t hta htb
      simp only [List.mem_map] at hta htb
      obtain ⟨ca, _, rfl⟩ := hta
      obtain ⟨cb, _, hcb⟩ := htb
      exact hne ((List.cons.injEq _ _ _ _).mp hcb.symm |>.1)

theorem mem_foldl_inter (i : Nat) :
    ∀ (rest : List (Finset Nat)) (s : Finset Nat),
      (i ∈ rest.foldl (fun a b => a ∩ b) s ↔ i ∈ s ∧ ∀ t ∈ rest, i ∈ t) := by
  intro rest
  induction rest with
  | nil => intro s; simp
  | cons t rest ih =>
    intro s
    simp only [List.foldl_cons, ih, Finset.mem_inter, List.mem_cons]
    constructor
    · rintro ⟨⟨hs, ht⟩, hrest⟩
      exact ⟨hs, fun u hu => hu.elim (fun h => h ▸ ht) (hrest u)⟩
    · rintro ⟨hs, hall⟩
      exact ⟨⟨hs, hall t (Or.inl rfl)⟩, fun u hu => hall u (Or.inr hu)⟩

theorem mem_matchSet {colVals : List String} {val : String} {i : Nat} :
    i ∈ matchSet colVals val ↔ i < colVals.length ∧ colVals.getD i "" = val := by
  simp [matchSet, Finset.mem_filter, Finset.mem_range]

/-! ## MinMaxNormalizer (common.py lines 10-61)

The numeric normalizer delegates to scikit-learn `MinMaxScaler` with the
default `feature_range = (0, 1)`.  scikit-learn semantics on a single-column
array: `fit` records `data_min_` and `data_max_` (raising on an empty array,
modelled as `none`); `scale_ = 1 / _handle_zeros_in_scale(data_max_ -
data_min_)` where `_handle_zeros_in_scale` maps a zero range to 1 (it never
raises); `transform(y) = (y - data_min_) * scale_`;
`inverse_transform(y) = y / scale_ + data_min_`.  Floats are modelled as
rationals. -/

structure MinMaxScaler where
  data_min : Rat
  data_max : Rat
  deriving DecidableEq

/-- scikit-learn `sklearn.preprocessing._data._handle_zeros_in_scale`:
a zero denominator is replaced by 1 so that constant features do not divide
by zero; no exception is raised. -/
def handle_zeros_in_scale (r : Rat) : Rat := if r = 0 then 1 else r

/-- scikit-learn `MinMaxScaler.fit` on a single-column array: records the
column minimum and maximum; an empty input raises (modelled as `none`). -/
def MinMaxScaler.fit : List Rat → Option MinMaxScaler
  | [] => Option.none
  | x :: xs => some { data_min := xs.foldl min x, data_max := xs.foldl max x }

/-- `scale_` of a fitted scaler with `feature_range = (0, 1)`. -/
def MinMaxScaler.scale (s : MinMaxScaler) : Rat :=
  1 / handle_zeros_in_scale (s.data_max - s.data_min)

/-- scikit-learn `MinMaxScaler.transform`, elementwise. -/
def MinMaxScaler.transform (s : MinMaxScaler) (y : Rat) : Rat :=
  (y - s.data_min) * s.scale

/-- scikit-learn `MinMaxScaler.inverse_transform`, elementwise. -/
def MinMaxScaler.inverse_transform (s : MinMaxScaler) (y : Rat) : Rat :=
  y / s.scale + s.data_min

/-- `MinMaxNormalizer` fitted state (`common.py` lines 10-19): the main
scaler, the secondary `single_scaler`, and the bookkeeping fields set by
`__init__` and `prepare`. -/
structure MinMaxNormalizer where
  scaler : MinMaxScaler
  single_scaler : MinMaxScaler
  factor : Rat := 1
  keys : List String := []
  combination : List String := []
  abs_mean : Rat
  deriving DecidableEq

/-- `MinMaxNormalizer.prepare` (`common.py` lines 21-40) in the
list-of-arrays case: line 26 flattens the nested values into a single column
(`np.array([j for i in x for j in i]).reshape(-1, 1)`), line 36 replaces
`None` entries by 0, line 37 records the mean absolute value, line 38 fits
the scaler, and line 40 fits `single_scaler` on the last (here: only) column
of the reshaped data, so it receives the same values.  The fit fails only on
an empty input (scikit-learn raises there); a zero-width value range is NOT
an error. -/
def MinMaxNormalizer.prepare (x : List (List (Option Rat))) : Option MinMaxNormalizer :=
  let flat := (x.flatMap id).map (fun v => v.getD 0)
  match MinMaxScaler.fit flat with
  | Option.none => Option.none
  | some s =>
      some { scaler := s, single_scaler := s,
             abs_mean := (flat.map (fun v => |v|)).sum / flat.length }

/-- `MinMaxNormalizer.encode` (`common.py` lines 42-50), elementwise
(the `torch.Tensor` wrapper carries the same numbers). -/
def MinMaxNormalizer.encode (nz : MinMaxNormalizer) (y : Rat) : Rat :=
  nz.scaler.transform y

/-- `MinMaxNormalizer.decode` (`common.py` lines 52-53), elementwise. -/
def MinMaxNormalizer.decode (nz : MinMaxNormalizer) (y : Rat) : Rat :=
  nz.scaler.inverse_transform y

theorem handle_zeros_in_scale_ne_zero (r : Rat) : handle_zeros_in_scale r ≠ 0 := by
  unfold handle_zeros_in_scale
  split
  · exact one_ne_zero
  · assumption

theorem MinMaxScaler.scale_ne_zero (s : MinMaxScaler) : s.scale ≠ 0 := by
  unfold MinMaxScaler.scale
  exact one_div_ne_zero (handle_zeros_in_scale_ne_zero _)

theorem MinMaxScaler.inverse_transform_transform (s : MinMaxScaler) (v : Rat) :
    s.inverse_transform (s.transform v) = v := by
  unfold MinMaxScaler.inverse_transform MinMaxScaler.transform
  rw [mul_div_assoc, div_self s.scale_ne_zero, mul_one, sub_add_cancel]

/-! ## TimeseriesSettings (api/types.py lines 57-91) -/

/-- Values a timeseries-settings dictionary may hold
(`TimeseriesSettings.from_dict` only ever inspects the dictionary's size
before raising, so the payload shape is immaterial). -/
inductive PyVal
  | str (s : String)
  | int (n : Int)
  | strList (xs : List String)
  | pyNone
  deriving DecidableEq

/-- `TimeseriesSettings` dataclass (`api/types.py` lines 57-65). -/
structure TimeseriesSettings where
  is_timeseries : Bool
  order_by : Option (List String) := Option.none
  window : Option Nat := Option.none
  group_by : Option (List String) := Option.none
  use_previous_target : Bool := false
  nr_predictions : Option Nat := Option.none
  historical_columns : Option (List String) := Option.none
  deriving DecidableEq

/-- `TimeseriesSettings.from_dict` (`api/types.py` lines 67-88).  The Python
body is
```text
if len(obj) > 0:
    for mandatory_setting in [ order_by , window ]:
        err = f Missing mandatory timeseries setting: \x7bmandatory_setting\x7d
        log.error(err)
        raise Exception(err)
    ...
else:
    timeseries_settings = TimeseriesSettings(is_timeseries=False)
```
— the loop body raises unconditionally on its first iteration (there is no
presence check on `obj`), so every non-empty dictionary raises with the
message for `order_by`, and only the empty dictionary returns a settings
object (with `is_timeseries=False`). -/
def TimeseriesSettings.from_dict (obj : List (String × PyVal)) :
    Except String TimeseriesSettings :=
  if obj.length > 0 then
    Except.error "Missing mandatory timeseries setting: order_by"
  else
    Except.ok { is_timeseries := false }

/-! ## model_analyzer control flow (analysis/model_analyzer.py lines 34-290)

The orchestrator is embedded at the level of its branch structure, local-name
binding and the data it installs in the prediction caches and the
`train_std_dev` dictionary.  External collaborators that live outside the
analyzed sources (the ensemble call at line 57, `clean_df` / `set_conf_range`
from `lightwood.analysis.nc.util` at lines 153-158, `evaluate_accuracy` at
line 227, `AccStats` at lines 269-284, the scikit-learn `OneHotEncoder` at
lines 85-86 and the `nonconformist`-style ICP objects) are treated as opaque:
their outputs are fields of `AnalyzerInput`, never recomputed. -/

/-- Target dtypes referenced by `model_analyzer` (`lightwood.api.dtype`). -/
inductive Dtype
  | integer
  | float
  | categorical
  | binary
  | tags
  | array
  | other
  deriving DecidableEq

/-- Python exceptions raised by the analyzed code paths. -/
inductive PyError
  | attributeError (msg : String)
  | keyError (msg : String)
  | nameError (msg : String)
  | typeError (msg : String)
  | indexError (msg : String)
  deriving DecidableEq

/-- Line 67: `data_type in [dtype.integer, dtype.float] or data_type in
[dtype.array]`. -/
def dtype_is_numerical (d : Dtype) : Bool :=
  d = Dtype.integer ∨ d = Dtype.float ∨ d = Dtype.array

/-- Line 70: `data_type in [dtype.categorical] or data_type in
[dtype.array]`. -/
def dtype_is_classification (d : Dtype) : Bool :=
  d = Dtype.categorical ∨ d = Dtype.array

/-- Line 73: `is_multi_ts = ts_cfg.is_timeseries and ts_cfg.nr_predictions >
1`.  Python `and` short-circuits; comparing `None > 1` raises `TypeError`. -/
def compute_is_multi_ts (ts : TimeseriesSettings) : Except PyError Bool :=
  if ts.is_timeseries then
    match ts.nr_predictions with
    | Option.none => Except.error (PyError.typeError "not supported between instances of NoneType and int")
    | some n => Except.ok (decide (n > 1))
  else
    Except.ok false

/-- Line 129: `np.array([p[0] for p in normal_predictions[target]])` — the
per-row first forecast step; `p[0]` on an empty row raises `IndexError`
(modelled as `none`). -/
def first_step_cache : List (List Rat) → Option (List Rat)
  | [] => some []
  | p :: rest =>
      match p.head?, first_step_cache rest with
      | some h, some c => some (h :: c)
      | _, _ => Option.none

/-- The prediction cache installed on the nonconformity wrapper
(lines 116-131). -/
inductive PredCache
  | classes (predictedClasses : List String)
  | numeric (values : List Rat)
  deriving DecidableEq

/-- Lines 116-131: choice of the prediction cache.  For classification the
cache is the one-hot inflation of the predicted classes (line 123; the
`pd.get_dummies` encoding itself is external, the carried class labels are
kept) and line 122 builds `class_map` by enumerating
`stats_info.train_observed_classes`, raising `TypeError` when that list is
`None`.  For multi-step time series (line 127-129) the cache holds only each
row's first forecast step.  Otherwise (line 131) it holds the plain
`predictions` column. -/
def setup_prediction_cache (is_classification is_multi_ts : Bool)
    (trainObservedClasses : Option (List String)) (predictedClasses : List String)
    (predsTarget : List (List Rat)) (predsCol : List Rat) :
    Except PyError PredCache :=
  if is_classification then
    match trainObservedClasses with
    | Option.none => Except.error (PyError.typeError "argument of type NoneType is not iterable")
    | some _ => Except.ok (PredCache.classes predictedClasses)
  else if is_multi_ts then
    match first_step_cache predsTarget with
    | some c => Except.ok (PredCache.numeric c)
    | Option.none => Except.error (PyError.indexError "index 0 is out of bounds")
  else
    Except.ok (PredCache.numeric predsCol)

/-- Line 141: `group_info = data.train_df[ts_cfg.group_by].to_dict('list')`.
At this point `data` is the raw validation frame (`encoded_data.data_frame`,
line 53), a pandas DataFrame.  pandas attribute lookup on a DataFrame falls
back to a column of that name; when no `train_df` column exists the lookup
raises `AttributeError`, and when one does, the expression indexes the
resulting column Series (whose index consists of the frame's row labels)
with the list of group-by column names, which raises `KeyError` because those
labels are not row labels.  Either way line 141 raises, so the per-group ICP
creation (lines 142-149) and the grouped calibration (lines 167-212) are
never reached. -/
def read_train_df_group_info (dataColumns : List String) (group_by : List String) :
    Except PyError (List (String × List String)) :=
  if "train_df" ∈ dataColumns then
    Except.error (PyError.keyError (String.intercalate ", " group_by ++ " not in index"))
  else
    Except.error (PyError.attributeError "DataFrame object has no attribute train_df")

/-- Keys of the `analysis['train_std_dev']` dictionary: the literal
`'__default'` entry (line 135) or a `frozenset(group)` entry (line 203). -/
inductive StdKey
  | dflt
  | group (combination : Finset String)
  deriving DecidableEq

/-- Python dictionary insert-or-overwrite on an association list. -/
def dict_insert (m : List (StdKey × Rat)) (k : StdKey) (v : Rat) :
    List (StdKey × Rat) :=
  if m.any (fun p => p.1 = k) then
    m.map (fun p => if p.1 = k then (k, v) else p)
  else
    m ++ [(k, v)]

/-- The `analysis['train_std_dev']` dictionary across the grouped phase, were
that phase reached: line 135 seeds `{'__default': stats_info.train_std_dev}`;
line 170 REASSIGNS the name to a fresh empty dictionary
(`analysis['train_std_dev'] = {}`), discarding the seeded entry; lines
198-203 then insert one `frozenset(group)` entry per group.  `groupStds` is
the list of per-group standard deviations the loop would compute. -/
def train_std_dev_after_grouped_phase (overall : Rat)
    (groupStds : List (Finset String × Rat)) : List (StdKey × Rat) :=
  let m := [(StdKey.dflt, overall)]
  let m := ([] : List (StdKey × Rat))
  groupStds.foldl (fun acc p => dict_insert acc (StdKey.group p.1) p.2) m

/-- Inputs of one `model_analyzer` run (lines 34-44), together with the
outputs of the external collaborators it consumes:
* `predsTarget` — `normal_predictions[target]` as per-row forecast arrays
  (a singleton array per row for plain scalar predictions);
* `predsCol` — `normal_predictions['predictions']`;
* `predictedClasses` — the same column read as class labels;
* `trainObservedClasses` — `stats_info.train_observed_classes`;
* `trainStdDev` — `stats_info.train_std_dev`;
* `confRanges` — the ranges returned by the external `set_conf_range`
  (line 158, `lightwood.analysis.nc.util`);
* `normalAccuracy` — the value of the external `evaluate_accuracy`
  (line 227). -/
structure AnalyzerInput where
  target : String
  targetDtype : Dtype
  tsCfg : TimeseriesSettings
  dataColumns : List String
  predsTarget : List (List Rat)
  predsCol : List Rat
  predictedClasses : List String
  trainObservedClasses : Option (List String)
  trainStdDev : Rat
  confRanges : List (Rat × Rat)
  normalAccuracy : Rat

/-- The parts of the returned `(analysis, full_predictions)` pair that the
embedding tracks: the `train_std_dev` map, the installed prediction cache,
the `__mdb_active` flag (line 221), the `lower`/`upper` columns concatenated
at line 224, and `validation_set_accuracy` (line 286). -/
structure AnalyzerResult where
  trainStdDevMap : List (StdKey × Rat)
  predictionCache : PredCache
  icpActive : Bool
  lowerUpper : List (Rat × Rat)
  validationSetAccuracy : Rat

/-- Control-flow embedding of `model_analyzer`
(`analysis/model_analyzer.py` lines 34-290).  Line correspondence:
* line 64-73: dtype flags and `is_multi_ts`;
* line 102: the guard `is_numerical or (is_classification and data_subtype
  != dtype.tags)`;
* lines 103-131: adapter setup and prediction cache
  (`setup_prediction_cache`);
* lines 134-135: `analysis['train_std_dev'] = {'__default': ...}` for
  non-classification targets;
* lines 138-149: grouped ICP creation, beginning with the line-141 read
  `data.train_df[...]` (`read_train_df_group_info`, which always raises);
* lines 151-164: default-ICP calibration (`clean_df`, `calibrate` and
  `set_conf_range` are external; their output is `inp.confRanges`) and the
  assignment of the local name `result_df` on the regression branch only
  (line 162);
* lines 167-212: grouped calibration — dead code behind the same guard as
  line 138 (the run already aborted at line 141); were it reached it would
  reassign `train_std_dev` (line 170, see
  `train_std_dev_after_grouped_phase`) and raise `NameError` at line 207,
  where the undefined name `params` is passed to `set_conf_range`;
* line 224: `pd.concat([normal_predictions, result_df.astype(float)], ...)`
  reads the local name `result_df`, raising `NameError` whenever line 162
  did not run;
* lines 227-290: accuracy statistics via external helpers, then return. -/
def model_analyzer (inp : AnalyzerInput) : Except PyError AnalyzerResult := do
  let is_numerical := dtype_is_numerical inp.targetDtype
  let is_classification := dtype_is_classification inp.targetDtype
  let is_multi_ts ← compute_is_multi_ts inp.tsCfg
  if is_numerical || (is_classification && !(decide (inp.targetDtype = Dtype.tags))) then do
    let cache ← setup_prediction_cache is_classification is_multi_ts
      inp.trainObservedClasses inp.predictedClasses inp.predsTarget inp.predsCol
    let tsd : List (StdKey × Rat) :=
      if is_classification then [] else [(StdKey.dflt, inp.trainStdDev)]
    let grouped := inp.tsCfg.is_timeseries && !(inp.tsCfg.group_by.getD []).isEmpty
    let _group_info ←
      (if grouped then do
        let gi ← read_train_df_group_info inp.dataColumns (inp.tsCfg.group_by.getD [])
        pure (some gi)
      else
        pure Option.none)
    let result_df : Option (List (Rat × Rat)) :=
      if !is_classification then some inp.confRanges else Option.none
    let tsd ←
      (if grouped then
        Except.error (PyError.nameError "name params is not defined")
      else
        pure tsd)
    match result_df with
    | Option.none => Except.error (PyError.nameError "name result_df is not defined")
    | some lu =>
        Except.ok { trainStdDevMap := tsd, predictionCache := cache,
                    icpActive := true, lowerUpper := lu,
                    validationSetAccuracy := inp.normalAccuracy }
  else
    Except.error (PyError.nameError "name result_df is not defined")

theorem first_step_cache_isSome :
    ∀ {preds : List (List Rat)}, (∀ p ∈ preds, p ≠ []) →
      ∃ c, first_step_cache preds = some c := by
  intro preds
  induction preds with
  | nil => intro _; exact ⟨[], rfl⟩
  | cons p rest ih =>
    intro h
    obtain ⟨c, hc⟩ := ih (fun q hq => h q (List.mem_cons_of_mem _ hq))
    obtain ⟨a, ha⟩ : ∃ a, p.head? = some a := by
      cases p with
      | nil => exact absurd rfl (h [] (List.mem_cons_self _ _))
      | cons a _ => exact ⟨a, rfl⟩
    exact ⟨a :: c, by simp [first_step_cache, ha, hc]⟩

theorem first_step_cache_getElem :
    ∀ {preds : List (List Rat)} {c : List Rat}, first_step_cache preds = some c →
      c.length = preds.length ∧ ∀ i : Nat, c.get? i = (preds.get? i).bind List.head? := by
  intro preds
  induction preds with
  | nil =>
    intro c h
    simp only [first_step_cache, Option.some.injEq] at h
    subst h
    exact ⟨rfl, fun i => by cases i <;> rfl⟩
  | cons p rest ih =>
    intro c h
    simp only [first_step_cache] at h
    cases hp : p.head? with
    | none => rw [hp] at h; exact absurd h (by simp)
    | some a =>
      rw [hp] at h
      cases hr : first_step_cache rest with
      | none => rw [hr] at h; exact absurd h (by simp)
      | some cr =>
        rw [hr] at h
        simp only [Option.some.injEq] at h
        subst h
        obtain ⟨hlen, hget⟩ := ih hr
        refine ⟨by simp [hlen], fun i => ?_⟩
        cases i with
        | zero => simp [hp]
        | succ j => simpa using hget j

/-! ## Claim theorems -/

/-- C1 (counterexample): the code keys groups by `frozenset` of the VALUES
only (`frozenset(combination)`), so two distinct column-to-value assignments
— here columns `a`, `b` with the values `x`, `y` swapped between them —
produce EQUAL group keys even though their sets of (column, value) pairs
differ. -/
theorem groupKey_swapped_values_collide :
    groupKeyOfCombination ["x", "y"] = groupKeyOfCombination ["y", "x"] ∧
      ({("a", "x"), ("b", "y")} : Finset (String × String)) ≠
        ({("a", "y"), ("b", "x")} : Finset (String × String)) := by
  exact ⟨by decide, by decide⟩

/-- C1 (amended): group keys are a value type over the combination's VALUES
only: two keys compare equal iff the same values occur in the two
combinations (order and multiplicity irrelevant).  The grouping columns are
not part of the key, so the column-to-value association does not influence
equality. -/
theorem groupKey_eq_iff_same_values (c1 c2 : List String) :
    groupKeyOfCombination c1 = groupKeyOfCombination c2 ↔ ∀ v, v ∈ c1 ↔ v ∈ c2 := by
  simp [groupKeyOfCombination, Finset.ext_iff, List.mem_toFinset]

/-- C2: group enumeration returns exactly the Cartesian product of each
column's distinct observed values: a combination is enumerated iff it picks,
for each column, one value observed somewhere in that column — co-occurrence
of the picked values in a single row is NOT required — and no combination is
enumerated twice. -/
theorem all_group_combinations_spec (group_info : List (List String)) :
    (all_group_combinations group_info).Nodup ∧
      ∀ combo, combo ∈ all_group_combinations group_info ↔
        List.Forall₂ (fun v col => v ∈ col) combo group_info := by
  constructor
  · refine pyProduct_nodup ?_
    intro l hl
    obtain ⟨x, _, rfl⟩ := List.mem_map.mp hl
    exact x.nodup_dedup
  · intro combo
    rw [all_group_combinations, mem_pyProduct, List.forall₂_map_right_iff]
    constructor
    · exact fun h => h.imp (fun a b hab => List.mem_dedup.mp hab)
    · exact fun h => h.imp (fun a b hab => List.mem_dedup.mpr hab)

/-- C3: `get_group_matches` — matching the default (empty) key returns every
row index; matching a non-empty key returns exactly the indices at which,
for each zipped (value, column) pair of the key, that column holds that
value (the intersection of the per-pair match sets); when nothing matches
the result is the empty set, not an error (the function is total). -/
theorem get_group_matches_spec :
    (∀ nrows group_info, get_group_matches nrows group_info [] = Finset.range nrows) ∧
      ∀ nrows (group_info : List (List String)) (combination : List String),
        combination ≠ [] → group_info ≠ [] →
        ∀ i, i ∈ get_group_matches nrows group_info combination ↔
          ∀ p ∈ combination.zip group_info, i < p.2.length ∧ p.2.getD i "" = p.1 := by
  constructor
  · intro nrows group_info
    simp [get_group_matches]
  · intro nrows group_info combination hc hg i
    obtain ⟨v, vs, rfl⟩ : ∃ v vs, combination = v :: vs := by
      cases combination with
      | nil => exact absurd rfl hc
      | cons v vs => exact ⟨v, vs, rfl⟩
    obtain ⟨l, ls, rfl⟩ : ∃ l ls, group_info = l :: ls := by
      cases group_info with
      | nil => exact absurd rfl hg
      | cons l ls => exact ⟨l, ls, rfl⟩
    unfold get_group_matches
    rw [if_neg (by simp : ¬(v :: vs = []))]
    simp only [List.zip_cons_cons, List.map_cons]
    rw [mem_foldl_inter]
    constructor
    · rintro ⟨h1, h2⟩ p hp
      rcases List.mem_cons.mp hp with hp0 | hp'
      · rw [hp0]
        exact mem_matchSet.mp h1
      · exact mem_matchSet.mp (h2 _ (List.mem_map_of_mem _ hp'))
    · intro h
      refine ⟨mem_matchSet.mpr (h _ (List.mem_cons_self _ _)), ?_⟩
      intro t ht
      obtain ⟨p, hp, rfl⟩ := List.mem_map.mp ht
      exact mem_matchSet.mpr (h p (List.mem_cons_of_mem _ hp))

/-- C3 (witness): on the spec's own example — one grouping column `region`
with rows `east, west, east` — the empty key matches all three rows, and
membership of row 0 under the key `east` is characterized by the per-pair
match condition. -/
theorem get_group_matches_spec_witness :
    get_group_matches 3 [["east", "west", "east"]] [] = Finset.range 3 ∧
      (0 ∈ get_group_matches 3 [["east", "west", "east"]] ["east"] ↔
        ∀ p ∈ (["east"].zip [["east", "west", "east"]]),
          0 < p.2.length ∧ p.2.getD 0 "" = p.1) :=
  ⟨get_group_matches_spec.1 3 [["east", "west", "east"]],
   get_group_matches_spec.2 3 [["east", "west", "east"]] ["east"]
     (by decide) (by decide) 0⟩

/-- C7 (counterexample): fitting the numeric normalizer on values whose
minimum equals their maximum does NOT fail — `prepare` on the constant data
`[[5, 5]]` silently returns a fitted normalizer whose range is degenerate
(no `DegenerateRangeError` exists anywhere in the code). -/
theorem prepare_degenerate_succeeds :
    MinMaxNormalizer.prepare [[some 5, some 5]] =
      some { scaler := { data_min := 5, data_max := 5 },
             single_scaler := { data_min := 5, data_max := 5 },
             factor := 1, keys := [], combination := [], abs_mean := 5 } := by
  simp [MinMaxNormalizer.prepare, MinMaxScaler.fit]

/-- C7 (amended): on a zero-width range the fit succeeds silently instead of
raising: scikit-learn substitutes a unit denominator for the zero range
(`handle_zeros_in_scale`), giving a fitted scale of 1, and decoding still
inverts encoding exactly — a safe identity-like fallback rather than a
divide-by-zero or an error. -/
theorem prepare_degenerate_safe_fallback (x : List (List (Option Rat)))
    (nz : MinMaxNormalizer) (h : MinMaxNormalizer.prepare x = some nz)
    (hdeg : nz.scaler.data_min = nz.scaler.data_max) :
    nz.scaler.scale = 1 ∧ ∀ v : Rat, nz.decode (nz.encode v) = v := by
  constructor
  · unfold MinMaxScaler.scale
    rw [← hdeg, sub_self]
    unfold handle_zeros_in_scale
    norm_num
  · intro v
    exact nz.scaler.inverse_transform_transform v

/-- C7 (amended, witness): instantiated at the degenerate fit over
`[[5, 5]]`. -/
theorem prepare_degenerate_safe_fallback_witness :
    ({ scaler := { data_min := 5, data_max := 5 },
       single_scaler := { data_min := 5, data_max := 5 },
       factor := 1, keys := [], combination := [],
       abs_mean := 5 } : MinMaxNormalizer).scaler.scale = 1 ∧
      ∀ v : Rat,
        ({ scaler := { data_min := 5, data_max := 5 },
           single_scaler := { data_min := 5, data_max := 5 },
           factor := 1, keys := [], combination := [],
           abs_mean := 5 } : MinMaxNormalizer).decode
          (({ scaler := { data_min := 5, data_max := 5 },
              single_scaler := { data_min := 5, data_max := 5 },
              factor := 1, keys := [], combination := [],
              abs_mean := 5 } : MinMaxNormalizer).encode v) = v :=
  prepare_degenerate_safe_fallback [[some 5, some 5]] _
    (by simp [MinMaxNormalizer.prepare, MinMaxScaler.fit]) rfl

/-- C8: for a normalizer fitted by `prepare` on data with a non-degenerate
range, decoding the encoding of any value inside the fitted min-max range
returns that value exactly (the rational model carries no rounding error, so
the round trip holds within any floating-point tolerance). -/
theorem minmax_roundtrip (x : List (List (Option Rat))) (nz : MinMaxNormalizer)
    (v : Rat) (h : MinMaxNormalizer.prepare x = some nz)
    (hnd : nz.scaler.data_min < nz.scaler.data_max)
    (hlo : nz.scaler.data_min ≤ v) (hhi : v ≤ nz.scaler.data_max) :
    nz.decode (nz.encode v) = v :=
  nz.scaler.inverse_transform_transform v

/-- C8 (witness): instantiated at the fit over `[[0, 10]]` and the in-range
value 4. -/
theorem minmax_roundtrip_witness :
    ({ scaler := { data_min := 0, data_max := 10 },
       single_scaler := { data_min := 0, data_max := 10 },
       factor := 1, keys := [], combination := [],
       abs_mean := 5 } : MinMaxNormalizer).decode
      (({ scaler := { data_min := 0, data_max := 10 },
          single_scaler := { data_min := 0, data_max := 10 },
          factor := 1, keys := [], combination := [],
          abs_mean := 5 } : MinMaxNormalizer).encode 4) = 4 :=
  minmax_roundtrip [[some 0, some 10]] _ 4
    (by simp [MinMaxNormalizer.prepare, MinMaxScaler.fit]; norm_num) (by decide)
    (by decide) (by decide)

/-- C10: `TimeseriesSettings.from_dict` raises on EVERY non-empty dictionary
(the mandatory-setting loop raises unconditionally on its first iteration),
so a settings object with `is_timeseries = true` can never be obtained from
it; only the empty dictionary succeeds, returning `is_timeseries = false`
with all optional fields unset. -/
theorem from_dict_spec :
    (∀ obj : List (String × PyVal), obj ≠ [] →
        TimeseriesSettings.from_dict obj =
          Except.error "Missing mandatory timeseries setting: order_by") ∧
      TimeseriesSettings.from_dict [] = Except.ok { is_timeseries := false } ∧
      ∀ obj s, TimeseriesSettings.from_dict obj = Except.ok s →
        s.is_timeseries = false := by
  refine ⟨?_, rfl, ?_⟩
  · intro obj h
    unfold TimeseriesSettings.from_dict
    rw [if_pos (List.length_pos.mpr h)]
  · intro obj s h
    unfold TimeseriesSettings.from_dict at h
    split at h
    · exact absurd h (by simp)
    · simp only [Except.ok.injEq] at h
      rw [← h]

/-- C10 (witness): a dictionary providing BOTH mandatory settings
(`order_by` and `window`) still raises. -/
theorem from_dict_spec_witness :
    TimeseriesSettings.from_dict
        [("order_by", PyVal.strList ["t"]), ("window", PyVal.int 5)] =
      Except.error "Missing mandatory timeseries setting: order_by" :=
  from_dict_spec.1 _ (by decide)

/-- C6: in a multi-step time-series run (`is_timeseries` and
`nr_predictions > 1`) on a forecast (non-classification) target, the
prediction cache installed for ICP calibration holds, per row, exactly the
first forecast step `p[0]` of that row's prediction array — never the full
array nor any later step. -/
theorem multi_ts_cache_first_step (ts : TimeseriesSettings) (k : Nat)
    (preds : List (List Rat)) (trainClasses : Option (List String))
    (predClasses : List String) (predsCol : List Rat)
    (hts : ts.is_timeseries = true) (hk : ts.nr_predictions = some k)
    (hk1 : 1 < k) (hne : ∀ p ∈ preds, p ≠ []) :
    compute_is_multi_ts ts = Except.ok true ∧
      ∃ c, setup_prediction_cache false true trainClasses predClasses preds predsCol =
          Except.ok (PredCache.numeric c) ∧
        c.length = preds.length ∧
        ∀ i : Nat, c.get? i = (preds.get? i).bind List.head? := by
  obtain ⟨c, hc⟩ := first_step_cache_isSome hne
  refine ⟨?_, c, ?_, first_step_cache_getElem hc⟩
  · simp [compute_is_multi_ts, hts, hk, hk1]
  · simp [setup_prediction_cache, hc]

/-- C6 (witness): two rows of three-step forecasts; the installed cache pairs
each row with its step-0 prediction. -/
theorem multi_ts_cache_first_step_witness :
    compute_is_multi_ts
        { is_timeseries := true, nr_predictions := some 3 } = Except.ok true ∧
      ∃ c, setup_prediction_cache false true Option.none []
            [[10, 11, 12], [20, 21, 22]] [] = Except.ok (PredCache.numeric c) ∧
        c.length = ([[10, 11, 12], [20, 21, 22]] : List (List Rat)).length ∧
        ∀ i : Nat, c.get? i =
          (([[10, 11, 12], [20, 21, 22]] : List (List Rat)).get? i).bind List.head? :=
  multi_ts_cache_first_step _ 3 _ Option.none [] [] rfl rfl
    (by decide) (by decide)

/-- C5: the grouped phase does NOT leave the default training-std-dev entry
in place: line 170 reassigns `analysis['train_std_dev']` to a fresh empty
dictionary before the per-group entries are inserted (lines 198-203), so
after the phase the map holds no `'__default'` key, whatever the groups and
whatever was seeded at line 135.  (Independently, a grouped numerical run
never even returns: it aborts at line 141 — see the C4 theorem.) -/
theorem train_std_dev_default_dropped (overall : Rat)
    (groupStds : List (Finset String × Rat)) :
    StdKey.dflt ∉ (train_std_dev_after_grouped_phase overall groupStds).map Prod.fst := by
  have insert_pres : ∀ (m : List (StdKey × Rat)) (k : StdKey) (v : Rat),
      k ≠ StdKey.dflt → (∀ p ∈ m, p.1 ≠ StdKey.dflt) →
      ∀ p ∈ dict_insert m k v, p.1 ≠ StdKey.dflt := by
    intro m k v hk hm p hp
    unfold dict_insert at hp
    split at hp
    · obtain ⟨q, hq, hpq⟩ := List.mem_map.mp hp
      by_cases hqk : q.1 = k
      · rw [if_pos hqk] at hpq
        rw [← hpq]
        exact hk
      · rw [if_neg hqk] at hpq
        exact hpq ▸ hm q hq
    · rcases List.mem_append.mp hp with hp' | hp'
      · exact hm p hp'
      · simp only [List.mem_singleton] at hp'
        rw [hp']
        exact hk
  have key : ∀ (gs : List (Finset String × Rat)) (m : List (StdKey × Rat)),
      (∀ p ∈ m, p.1 ≠ StdKey.dflt) →
      ∀ p ∈ gs.foldl (fun acc q => dict_insert acc (StdKey.group q.1) q.2) m,
        p.1 ≠ StdKey.dflt := by
    intro gs
    induction gs with
    | nil => intro m hm; exact hm
    | cons g gs ih =>
      intro m hm
      exact ih (dict_insert m (StdKey.group g.1) g.2)
        (insert_pres m (StdKey.group g.1) g.2
          (fun hc => StdKey.noConfusion hc) hm)
  intro hmem
  obtain ⟨p, hp, hpd⟩ := List.mem_map.mp hmem
  exact key groupStds [] (by intro p hp; cases hp) p hp hpd

/-- C5 (witness): concretely, seeding the overall std-dev 2 and running the
grouped phase for one group leaves no default entry. -/
theorem train_std_dev_default_dropped_witness :
    StdKey.dflt ∉
      (train_std_dev_after_grouped_phase 2 [({"a"}, 1)]).map Prod.fst :=
  train_std_dev_default_dropped 2 [({"a"}, 1)]

/-! ### Reduction helpers for the `model_analyzer` control flow -/

theorem except_bind_ok {ε α β : Type} (a : α) (f : α → Except ε β) :
    (Except.ok a : Except ε α) >>= f = f a := rfl

theorem except_bind_error {ε α β : Type} (e : ε) (f : α → Except ε β) :
    (Except.error e : Except ε α) >>= f = Except.error e := rfl

theorem read_train_df_group_info_errors (cols gb : List String) :
    ∃ e, read_train_df_group_info cols gb = Except.error e := by
  unfold read_train_df_group_info
  split
  · exact ⟨_, rfl⟩
  · exact ⟨_, rfl⟩

/-- C4: a numerical-target run with time-series grouping configured
(`is_timeseries` and a non-empty `group_by`) aborts inside the grouped
phase: line 141 reads the `train_df` attribute on the plain validation data
frame, raising `AttributeError`, so no per-group ICP is ever calibrated and
merged (the undefined name `params` at line 207 sits in code the run never
even reaches). -/
theorem grouped_ts_numerical_run_raises (inp : AnalyzerInput) (k : Nat)
    (hnum : inp.targetDtype = Dtype.integer ∨ inp.targetDtype = Dtype.float)
    (hts : inp.tsCfg.is_timeseries = true)
    (hgb : inp.tsCfg.group_by.getD [] ≠ [])
    (hnr : inp.tsCfg.nr_predictions = some k)
    (hne : ∀ p ∈ inp.predsTarget, p ≠ [])
    (hcols : "train_df" ∉ inp.dataColumns) :
    model_analyzer inp =
      Except.error
        (PyError.attributeError "DataFrame object has no attribute train_df") := by
  obtain ⟨c, hc⟩ := first_step_cache_isSome hne
  obtain ⟨gb0, gbs, hgbl⟩ : ∃ a l, inp.tsCfg.group_by.getD [] = a :: l := by
    cases hg2 : inp.tsCfg.group_by.getD [] with
    | nil => exact absurd hg2 hgb
    | cons a l => exact ⟨a, l, rfl⟩
  rcases hnum with h | h <;> cases hdk : decide (k > 1) <;>
    simp [model_analyzer, compute_is_multi_ts, hts, hnr, h, hdk, hgbl,
          dtype_is_numerical, dtype_is_classification, setup_prediction_cache,
          hc, read_train_df_group_info, hcols, except_bind_ok, except_bind_error]

/-- C9: a run on a categorical (classification) target never produces an
analysis record or predictions-with-confidence frame: every control path
raises before returning — in particular a run that reaches the concluding
merge finds the local name `result_df` unassigned (it is only assigned on
the regression branch, line 162) and raises `NameError` at line 224. -/
theorem categorical_run_never_returns (inp : AnalyzerInput)
    (hdt : inp.targetDtype = Dtype.categorical) :
    ∃ e, model_analyzer inp = Except.error e := by
  cases hmt : compute_is_multi_ts inp.tsCfg with
  | error e =>
      exact ⟨e, by unfold model_analyzer; rw [hmt]; rfl⟩
  | ok b =>
      cases hoc : inp.trainObservedClasses with
      | none =>
          refine ⟨PyError.typeError "argument of type NoneType is not iterable", ?_⟩
          unfold model_analyzer
          rw [hmt, except_bind_ok]
          simp [hdt, dtype_is_numerical, dtype_is_classification,
                setup_prediction_cache, hoc, except_bind_error]
      | some cls =>
          cases hg : inp.tsCfg.is_timeseries && !(inp.tsCfg.group_by.getD []).isEmpty with
          | true =>
              obtain ⟨e, he⟩ :=
                read_train_df_group_info_errors inp.dataColumns (inp.tsCfg.group_by.getD [])
              refine ⟨e, ?_⟩
              unfold model_analyzer
              rw [hmt, except_bind_ok]
              simp [hdt, dtype_is_numerical, dtype_is_classification,
                    setup_prediction_cache, hoc, hg, he,
                    except_bind_ok, except_bind_error]
          | false =>
              refine ⟨PyError.nameError "name result_df is not defined", ?_⟩
              unfold model_analyzer
              rw [hmt, except_bind_ok]
              simp [hdt, dtype_is_numerical, dtype_is_classification,
                    setup_prediction_cache, hoc, hg,
                    except_bind_ok, except_bind_error]

/-- A concrete numerical grouped time-series configuration. -/
def groupedInput : AnalyzerInput :=
  { target := "y", targetDtype := Dtype.float,
    tsCfg := { is_timeseries := true, order_by := some ["t"], window := some 2,
               group_by := some ["region"], nr_predictions := some 2 },
    dataColumns := ["region", "t", "y"],
    predsTarget := [[1, 2], [3, 4]], predsCol := [1, 3],
    predictedClasses := [], trainObservedClasses := Option.none,
    trainStdDev := 1, confRanges := [], normalAccuracy := 1 }

/-- C4 (witness): the concrete grouped run aborts with the line-141
AttributeError. -/
theorem grouped_ts_numerical_run_raises_witness :
    model_analyzer groupedInput =
      Except.error
        (PyError.attributeError "DataFrame object has no attribute train_df") :=
  grouped_ts_numerical_run_raises groupedInput 2 (Or.inr rfl) rfl
    (by decide) rfl (by decide) (by decide)

/-- A concrete categorical-target configuration (no time-series grouping, so
the run reaches the final merge). -/
def categoricalInput : AnalyzerInput :=
  { target := "y", targetDtype := Dtype.categorical,
    tsCfg := { is_timeseries := false },
    dataColumns := ["x", "y"],
    predsTarget := [], predsCol := [],
    predictedClasses := ["a", "b"], trainObservedClasses := some ["a", "b"],
    trainStdDev := 1, confRanges := [], normalAccuracy := 1 }

/-- C9 (witness): the concrete categorical run raises instead of returning. -/
theorem categorical_run_never_returns_witness :
    ∃ e, model_analyzer categoricalInput = Except.error e :=
  categorical_run_never_returns categoricalInput rfl
